import Mathlib

/-!
Verification of the schema layer of the Bruvver repository
(`src/studio-main/src/schemas.py`), a pydantic model file for a
restaurant point-of-sale application.

The embedding models pydantic construction as total Lean functions from a
wire payload (an association list of field names to raw `Value`s) to
`Except ValidationError Shape`.  Each schema class of the source becomes a
Lean structure of the same name, and its pydantic constructor becomes a
`parse` function assembled from small per-field combinators that mirror
pydantic field handling: required fields must be present, optional fields
fall back to their declared default, per-field errors are collected (not
short-circuited), and extra keys in the payload are ignored.

Numeric conventions of the embedding: Python floats are modelled as `Rat`
and `datetime` values as integer timestamps (pydantic accepts numeric
timestamps for `datetime` fields); Python `str.lower` and `str.endswith`
are modelled on character lists.
-/

deriving instance DecidableEq for Except

namespace Schemas

/-- Raw wire values handed to a schema constructor: the JSON-ish data a
web framework deserializes before validation. -/
inductive Value where
  | vint (n : Int)
  | vfloat (q : Rat)
  | vstr (s : String)
  | vbool (b : Bool)
  | vnone
  | vlist (xs : List Value)
  | vobj (fields : List (String × Value))
deriving Repr

/-- Wire payload: an association list from field names to raw values. -/
abbrev Payload := List (String × Value)

/-- Attribute/key lookup in a payload; first binding wins, as in a dict. -/
def lookupField : Payload → String → Option Value
  | [], _ => none
  | (k, v) :: rest, name => if k = name then some v else lookupField rest name

/-- An attribute-bearing source for population: pydantic reads a field
either out of a mapping by key or off an arbitrary object by attribute
name (`from_attributes`); both are a partial map from names to values. -/
abbrev Getter := String → Option Value

/-- The kinds of per-field failure pydantic can report for this file:
a required field missing, a type-coercion failure, an unrecognized enum
value, or a `ValueError` raised by a field validator (the image-URL
extension check). -/
inductive ErrKind where
  | missing
  | typeError
  | enumError
  | valueError (msg : String)
deriving DecidableEq, Repr

/-- One entry of a pydantic error report: offending field plus kind. -/
abbrev FieldError := String × ErrKind

/-- A pydantic `ValidationError`: the collected list of per-field errors. -/
abbrev ValidationError := List FieldError

/-- Applicative combination of two field results, accumulating errors from
both sides the way pydantic collects every offending field. -/
def vseq {α β : Type} (a : Except ValidationError α) (b : Except ValidationError β) :
    Except ValidationError (α × β) :=
  match a, b with
  | .ok x, .ok y => .ok (x, y)
  | .error e, .ok _ => .error e
  | .ok _, .error f => .error f
  | .error e, .error f => .error (e ++ f)

/-- A required field: absent is a `missing` error, present values go
through the field codec with errors tagged by the field name. -/
def reqField {α : Type} (g : Getter) (name : String)
    (codec : Value → Except ErrKind α) : Except ValidationError α :=
  match g name with
  | none => .error [(name, ErrKind.missing)]
  | some v =>
    match codec v with
    | .ok x => .ok x
    | .error k => .error [(name, k)]

/-- A field with a declared default: absent yields the default, present
values go through the field codec. -/
def dfltField {α : Type} (g : Getter) (name : String)
    (codec : Value → Except ErrKind α) (dflt : α) : Except ValidationError α :=
  match g name with
  | none => .ok dflt
  | some v =>
    match codec v with
    | .ok x => .ok x
    | .error k => .error [(name, k)]

/-- The field names a source actually supplies, among the declared ones:
this models the `__fields_set__` record pydantic keeps on an instance,
which is how an absent field is distinguished from an explicit null. -/
def presentKeys (g : Getter) (names : List String) : List String :=
  names.filter (fun n => (g n).isSome)

/-- Codec for `int` fields. -/
def parseIntV : Value → Except ErrKind Int
  | .vint n => .ok n
  | _ => .error ErrKind.typeError

/-- Codec for `float` fields; pydantic coerces ints to floats. -/
def parseFloatV : Value → Except ErrKind Rat
  | .vfloat q => .ok q
  | .vint n => .ok (n : Rat)
  | _ => .error ErrKind.typeError

/-- Codec for `str` fields. -/
def parseStrV : Value → Except ErrKind String
  | .vstr s => .ok s
  | _ => .error ErrKind.typeError

/-- Codec for `bool` fields. -/
def parseBoolV : Value → Except ErrKind Bool
  | .vbool b => .ok b
  | _ => .error ErrKind.typeError

/-- A `datetime` as carried by the embedding: an integer timestamp. -/
structure PyDateTime where
  ts : Int
deriving DecidableEq, Repr

/-- Codec for `datetime` fields (numeric timestamps in this embedding). -/
def parseDateTimeV : Value → Except ErrKind PyDateTime
  | .vint n => .ok ⟨n⟩
  | _ => .error ErrKind.typeError

/-- Lift a codec to `Optional[T]`: an explicit null parses to `none`. -/
def parseOptV {α : Type} (codec : Value → Except ErrKind α) :
    Value → Except ErrKind (Option α)
  | .vnone => .ok none
  | v => (codec v).map some

/-- Python `str.lower` on the character list of a string (ASCII case map,
matching the characters the schemas compare against). -/
def pyLower (s : String) : String :=
  String.mk (s.data.map Char.toLower)

/-- Python `str.endswith`: suffix test on character lists. -/
def pyEndsWith (s suffix : String) : Bool :=
  List.isSuffixOf suffix.data s.data

/-- The extension allow-list of `ImageUploadResponse.validate_image_url`. -/
def allowed_extensions : List String :=
  [".jpg", ".jpeg", ".png", ".webp", ".gif"]

/-- The `url` field validator of `ImageUploadResponse`: if the lower-cased
value ends with no allowed extension, raise `ValueError("Invalid image
format")`; otherwise return the value unchanged. -/
def validate_image_url (v : String) : Except ErrKind String :=
  if allowed_extensions.any (fun ext => pyEndsWith (pyLower v) ext) then
    .ok v
  else
    .error (ErrKind.valueError "Invalid image format")

/-- The `ImageUploadResponse` shape. -/
structure ImageUploadResponse where
  url : String
  filename : String
  size : Int
deriving DecidableEq, Repr

/-- Pydantic construction of `ImageUploadResponse`: field typing plus the
`url` validator. -/
def ImageUploadResponse.parse (m : Payload) : Except ValidationError ImageUploadResponse :=
  (vseq (reqField (lookupField m) "url" (fun v => parseStrV v >>= validate_image_url))
    (vseq (reqField (lookupField m) "filename" parseStrV)
      (reqField (lookupField m) "size" parseIntV))).map
    (fun x => ⟨x.1, x.2.1, x.2.2⟩)

/-- The `UserRole` enum of the source: closed set with string values
"admin" and "worker". -/
inductive UserRole where
  | admin
  | worker
deriving DecidableEq, Repr

/-- Codec for `UserRole`-typed fields: the exact strings "admin" and
"worker" (case-sensitive enum membership); anything else is rejected. -/
def parseUserRoleV : Value → Except ErrKind UserRole
  | .vstr s =>
    if s = "admin" then .ok UserRole.admin
    else if s = "worker" then .ok UserRole.worker
    else .error ErrKind.enumError
  | _ => .error ErrKind.enumError

/-- Modelled from the spec: the well-formed email address check behind the
`EmailStr` type.  The actual checker lives in the external email-validator
library, which is not part of this repository; the spec only says
`EmailStr` fields require a "well-formed email address".  The model
requires exactly one "@", a nonempty local part, and a domain that
contains an inner dot. -/
def isEmail (s : String) : Bool :=
  match s.data.splitOn '@' with
  | [lp, dom] =>
    !lp.isEmpty && !dom.isEmpty && dom.contains '.' &&
      dom.head? != some '.' && dom.getLast? != some '.'
  | _ => false

/-- Codec for `EmailStr` fields: a string passing the email check. -/
def parseEmailV : Value → Except ErrKind String
  | .vstr s => if isEmail s then .ok s else .error ErrKind.typeError
  | _ => .error ErrKind.typeError

/-- The `UserResponse` shape (note: `role` is a plain `str` here, not the
`UserRole` enum). -/
structure UserResponse where
  id : Int
  username : String
  email : String
  full_name : String
  role : String
  branch_id : Option Int
  is_active : Bool
  is_superuser : Bool
  created_at : PyDateTime
deriving DecidableEq, Repr

/-- Pydantic construction of `UserResponse` from a payload. -/
def UserResponse.parse (m : Payload) : Except ValidationError UserResponse :=
  (vseq (reqField (lookupField m) "id" parseIntV)
    (vseq (reqField (lookupField m) "username" parseStrV)
      (vseq (reqField (lookupField m) "email" parseStrV)
        (vseq (reqField (lookupField m) "full_name" parseStrV)
          (vseq (reqField (lookupField m) "role" parseStrV)
            (vseq (dfltField (lookupField m) "branch_id" (parseOptV parseIntV) none)
              (vseq (reqField (lookupField m) "is_active" parseBoolV)
                (vseq (reqField (lookupField m) "is_superuser" parseBoolV)
                  (reqField (lookupField m) "created_at" parseDateTimeV))))))))).map
    (fun x => ⟨x.1, x.2.1, x.2.2.1, x.2.2.2.1, x.2.2.2.2.1, x.2.2.2.2.2.1,
      x.2.2.2.2.2.2.1, x.2.2.2.2.2.2.2.1, x.2.2.2.2.2.2.2.2⟩)

/-- The `BranchBase` shape. -/
structure BranchBase where
  name : String
  location : Option String
  address : Option String
  phone : Option String
  email : Option String
  is_active : Bool
deriving DecidableEq, Repr

/-- Pydantic construction of `BranchBase` (note: `email` here is a plain
optional `str`, not `EmailStr`). -/
def BranchBase.parse (m : Payload) : Except ValidationError BranchBase :=
  (vseq (reqField (lookupField m) "name" parseStrV)
    (vseq (dfltField (lookupField m) "location" (parseOptV parseStrV) none)
      (vseq (dfltField (lookupField m) "address" (parseOptV parseStrV) none)
        (vseq (dfltField (lookupField m) "phone" (parseOptV parseStrV) none)
          (vseq (dfltField (lookupField m) "email" (parseOptV parseStrV) none)
            (dfltField (lookupField m) "is_active" parseBoolV true)))))).map
    (fun x => ⟨x.1, x.2.1, x.2.2.1, x.2.2.2.1, x.2.2.2.2.1, x.2.2.2.2.2⟩)

/-- `BranchCreate(BranchBase): pass` — identical field set. -/
abbrev BranchCreate := BranchBase

/-- `BranchCreate` construction is `BranchBase` construction. -/
abbrev BranchCreate.parse := BranchBase.parse

/-- The `BranchUpdate` shape: every field optional, with the set of
explicitly supplied fields recorded (pydantic `__fields_set__`). -/
structure BranchUpdate where
  name : Option String
  location : Option String
  address : Option String
  phone : Option String
  email : Option String
  is_active : Option Bool
  fields_set : List String
deriving DecidableEq, Repr

/-- The declared field names of `BranchUpdate`. -/
def BranchUpdate.fieldNames : List String :=
  ["name", "location", "address", "phone", "email", "is_active"]

/-- Pydantic construction of `BranchUpdate`. -/
def BranchUpdate.parse (m : Payload) : Except ValidationError BranchUpdate :=
  (vseq (dfltField (lookupField m) "name" (parseOptV parseStrV) none)
    (vseq (dfltField (lookupField m) "location" (parseOptV parseStrV) none)
      (vseq (dfltField (lookupField m) "address" (parseOptV parseStrV) none)
        (vseq (dfltField (lookupField m) "phone" (parseOptV parseStrV) none)
          (vseq (dfltField (lookupField m) "email" (parseOptV parseStrV) none)
            (dfltField (lookupField m) "is_active" (parseOptV parseBoolV) none)))))).map
    (fun x => ⟨x.1, x.2.1, x.2.2.1, x.2.2.2.1, x.2.2.2.2.1, x.2.2.2.2.2,
      presentKeys (lookupField m) BranchUpdate.fieldNames⟩)

/-- The `BranchResponse` shape: `BranchBase` plus id and timestamps. -/
structure BranchResponse where
  name : String
  location : Option String
  address : Option String
  phone : Option String
  email : Option String
  is_active : Bool
  id : Int
  created_at : PyDateTime
  updated_at : PyDateTime
deriving DecidableEq, Repr

/-- Construction of `BranchResponse` from an attribute-bearing source
(`from_attributes = True`). -/
def BranchResponse.from_attributes (g : Getter) : Except ValidationError BranchResponse :=
  (vseq (reqField g "name" parseStrV)
    (vseq (dfltField g "location" (parseOptV parseStrV) none)
      (vseq (dfltField g "address" (parseOptV parseStrV) none)
        (vseq (dfltField g "phone" (parseOptV parseStrV) none)
          (vseq (dfltField g "email" (parseOptV parseStrV) none)
            (vseq (dfltField g "is_active" parseBoolV true)
              (vseq (reqField g "id" parseIntV)
                (vseq (reqField g "created_at" parseDateTimeV)
                  (reqField g "updated_at" parseDateTimeV))))))))).map
    (fun x => ⟨x.1, x.2.1, x.2.2.1, x.2.2.2.1, x.2.2.2.2.1, x.2.2.2.2.2.1,
      x.2.2.2.2.2.2.1, x.2.2.2.2.2.2.2.1, x.2.2.2.2.2.2.2.2⟩)

/-- Pydantic construction of `BranchResponse` from a payload. -/
def BranchResponse.parse (m : Payload) : Except ValidationError BranchResponse :=
  BranchResponse.from_attributes (lookupField m)

/-- Parse every element of a raw list with an element codec (first failure
reported; the nested location detail of pydantic error reports is
collapsed to the element kind). -/
def mapElems {α : Type} (elem : Value → Except ErrKind α) :
    List Value → Except ErrKind (List α)
  | [] => .ok []
  | v :: vs =>
    match elem v, mapElems elem vs with
    | .ok x, .ok xs => .ok (x :: xs)
    | .error k, _ => .error k
    | .ok _, .error k => .error k

/-- Codec for `List[T]` fields. -/
def parseListV {α : Type} (elem : Value → Except ErrKind α) :
    Value → Except ErrKind (List α)
  | .vlist xs => mapElems elem xs
  | _ => .error ErrKind.typeError

/-- Codec for a nested model field: the raw value must be an object whose
fields parse under the nested shape (nested error detail collapsed to a
type error at this level). -/
def objOf {α : Type} (p : Payload → Except ValidationError α) :
    Value → Except ErrKind α
  | .vobj m =>
    match p m with
    | .ok x => .ok x
    | .error _ => .error ErrKind.typeError
  | _ => .error ErrKind.typeError

/-- The `DailyExpenseBase` shape. -/
structure DailyExpenseBase where
  category : String
  item_name : String
  description : Option String
  quantity : Option Rat
  unit : Option String
  unit_cost : Rat
  total_amount : Rat
  expense_date : Option PyDateTime
  receipt_number : Option String
  vendor : Option String
deriving DecidableEq, Repr

/-- Pydantic construction of `DailyExpenseBase`.  Note there is no
constraint relating `total_amount` to `quantity` and `unit_cost`: each is
typed independently. -/
def DailyExpenseBase.parse (m : Payload) : Except ValidationError DailyExpenseBase :=
  (vseq (reqField (lookupField m) "category" parseStrV)
    (vseq (reqField (lookupField m) "item_name" parseStrV)
      (vseq (dfltField (lookupField m) "description" (parseOptV parseStrV) none)
        (vseq (dfltField (lookupField m) "quantity" (parseOptV parseFloatV) none)
          (vseq (dfltField (lookupField m) "unit" (parseOptV parseStrV) none)
            (vseq (reqField (lookupField m) "unit_cost" parseFloatV)
              (vseq (reqField (lookupField m) "total_amount" parseFloatV)
                (vseq (dfltField (lookupField m) "expense_date" (parseOptV parseDateTimeV) none)
                  (vseq (dfltField (lookupField m) "receipt_number" (parseOptV parseStrV) none)
                    (dfltField (lookupField m) "vendor" (parseOptV parseStrV) none)))))))))).map
    (fun x => ⟨x.1, x.2.1, x.2.2.1, x.2.2.2.1, x.2.2.2.2.1, x.2.2.2.2.2.1,
      x.2.2.2.2.2.2.1, x.2.2.2.2.2.2.2.1, x.2.2.2.2.2.2.2.2.1, x.2.2.2.2.2.2.2.2.2⟩)

/-- The `DailyExpenseCreate` shape: `DailyExpenseBase` plus `branch_id`. -/
structure DailyExpenseCreate where
  category : String
  item_name : String
  description : Option String
  quantity : Option Rat
  unit : Option String
  unit_cost : Rat
  total_amount : Rat
  expense_date : Option PyDateTime
  receipt_number : Option String
  vendor : Option String
  branch_id : Int
deriving DecidableEq, Repr

/-- Pydantic construction of `DailyExpenseCreate`. -/
def DailyExpenseCreate.parse (m : Payload) : Except ValidationError DailyExpenseCreate :=
  (vseq (DailyExpenseBase.parse m)
    (reqField (lookupField m) "branch_id" parseIntV)).map
    (fun x => ⟨x.1.category, x.1.item_name, x.1.description, x.1.quantity, x.1.unit,
      x.1.unit_cost, x.1.total_amount, x.1.expense_date, x.1.receipt_number,
      x.1.vendor, x.2⟩)

/-- The `DailyExpenseUpdate` shape: every field optional, with the set of
explicitly supplied fields recorded. -/
structure DailyExpenseUpdate where
  category : Option String
  item_name : Option String
  description : Option String
  quantity : Option Rat
  unit : Option String
  unit_cost : Option Rat
  total_amount : Option Rat
  expense_date : Option PyDateTime
  receipt_number : Option String
  vendor : Option String
  fields_set : List String
deriving DecidableEq, Repr

/-- The declared field names of `DailyExpenseUpdate`. -/
def DailyExpenseUpdate.fieldNames : List String :=
  ["category", "item_name", "description", "quantity", "unit", "unit_cost",
   "total_amount", "expense_date", "receipt_number", "vendor"]

/-- Pydantic construction of `DailyExpenseUpdate`. -/
def DailyExpenseUpdate.parse (m : Payload) : Except ValidationError DailyExpenseUpdate :=
  (vseq (dfltField (lookupField m) "category" (parseOptV parseStrV) none)
    (vseq (dfltField (lookupField m) "item_name" (parseOptV parseStrV) none)
      (vseq (dfltField (lookupField m) "description" (parseOptV parseStrV) none)
        (vseq (dfltField (lookupField m) "quantity" (parseOptV parseFloatV) none)
          (vseq (dfltField (lookupField m) "unit" (parseOptV parseStrV) none)
            (vseq (dfltField (lookupField m) "unit_cost" (parseOptV parseFloatV) none)
              (vseq (dfltField (lookupField m) "total_amount" (parseOptV parseFloatV) none)
                (vseq (dfltField (lookupField m) "expense_date" (parseOptV parseDateTimeV) none)
                  (vseq (dfltField (lookupField m) "receipt_number" (parseOptV parseStrV) none)
                    (dfltField (lookupField m) "vendor" (parseOptV parseStrV) none)))))))))).map
    (fun x => ⟨x.1, x.2.1, x.2.2.1, x.2.2.2.1, x.2.2.2.2.1, x.2.2.2.2.2.1,
      x.2.2.2.2.2.2.1, x.2.2.2.2.2.2.2.1, x.2.2.2.2.2.2.2.2.1, x.2.2.2.2.2.2.2.2.2,
      presentKeys (lookupField m) DailyExpenseUpdate.fieldNames⟩)

/-- The `DailyExpenseResponse` shape. -/
structure DailyExpenseResponse where
  category : String
  item_name : String
  description : Option String
  quantity : Option Rat
  unit : Option String
  unit_cost : Rat
  total_amount : Rat
  expense_date : Option PyDateTime
  receipt_number : Option String
  vendor : Option String
  id : Int
  branch_id : Int
  created_by : Int
  created_at : PyDateTime
deriving DecidableEq, Repr

/-- The `QuickExpenseCreate` shape. -/
structure QuickExpenseCreate where
  item_name : String
  quantity : Rat
  unit : String
  branch_id : Int
  expense_date : Option PyDateTime
deriving DecidableEq, Repr

/-- Pydantic construction of `QuickExpenseCreate`. -/
def QuickExpenseCreate.parse (m : Payload) : Except ValidationError QuickExpenseCreate :=
  (vseq (reqField (lookupField m) "item_name" parseStrV)
    (vseq (reqField (lookupField m) "quantity" parseFloatV)
      (vseq (reqField (lookupField m) "unit" parseStrV)
        (vseq (reqField (lookupField m) "branch_id" parseIntV)
          (dfltField (lookupField m) "expense_date" (parseOptV parseDateTimeV) none))))).map
    (fun x => ⟨x.1, x.2.1, x.2.2.1, x.2.2.2.1, x.2.2.2.2⟩)

/-- The `IngredientBase` shape. -/
structure IngredientBase where
  name : String
  quantity : Rat
  unit : String
  image_url : Option String
deriving DecidableEq, Repr

/-- Pydantic construction of `IngredientBase` (note: `image_url` has no
validator here; the extension check exists only on `ImageUploadResponse`). -/
def IngredientBase.parse (m : Payload) : Except ValidationError IngredientBase :=
  (vseq (reqField (lookupField m) "name" parseStrV)
    (vseq (reqField (lookupField m) "quantity" parseFloatV)
      (vseq (reqField (lookupField m) "unit" parseStrV)
        (dfltField (lookupField m) "image_url" (parseOptV parseStrV) none)))).map
    (fun x => ⟨x.1, x.2.1, x.2.2.1, x.2.2.2⟩)

/-- `IngredientCreate(IngredientBase): pass` — identical field set. -/
abbrev IngredientCreate := IngredientBase

/-- `IngredientCreate` construction is `IngredientBase` construction. -/
abbrev IngredientCreate.parse := IngredientBase.parse

/-- The `IngredientUpdate` shape. -/
structure IngredientUpdate where
  name : Option String
  quantity : Option Rat
  unit : Option String
  image_url : Option String
  fields_set : List String
deriving DecidableEq, Repr

/-- The declared field names of `IngredientUpdate`. -/
def IngredientUpdate.fieldNames : List String :=
  ["name", "quantity", "unit", "image_url"]

/-- Pydantic construction of `IngredientUpdate`. -/
def IngredientUpdate.parse (m : Payload) : Except ValidationError IngredientUpdate :=
  (vseq (dfltField (lookupField m) "name" (parseOptV parseStrV) none)
    (vseq (dfltField (lookupField m) "quantity" (parseOptV parseFloatV) none)
      (vseq (dfltField (lookupField m) "unit" (parseOptV parseStrV) none)
        (dfltField (lookupField m) "image_url" (parseOptV parseStrV) none)))).map
    (fun x => ⟨x.1, x.2.1, x.2.2.1, x.2.2.2,
      presentKeys (lookupField m) IngredientUpdate.fieldNames⟩)

/-- The `IngredientResponse` shape. -/
structure IngredientResponse where
  name : String
  quantity : Rat
  unit : String
  image_url : Option String
  id : Int
  menu_item_id : Int
deriving DecidableEq, Repr

/-- The `MenuItemBase` shape. -/
structure MenuItemBase where
  name : String
  price : Rat
  description : Option String
  image_url : Option String
  category : Option String
  is_available : Bool
  branch_id : Option Int
deriving DecidableEq, Repr

/-- The `MenuItemCreate` shape: base fields plus a list of ingredients
(default empty). -/
structure MenuItemCreate where
  name : String
  price : Rat
  description : Option String
  image_url : Option String
  category : Option String
  is_available : Bool
  branch_id : Option Int
  ingredients : List IngredientCreate
deriving DecidableEq, Repr

/-- Pydantic construction of `MenuItemCreate`. -/
def MenuItemCreate.parse (m : Payload) : Except ValidationError MenuItemCreate :=
  (vseq (reqField (lookupField m) "name" parseStrV)
    (vseq (reqField (lookupField m) "price" parseFloatV)
      (vseq (dfltField (lookupField m) "description" (parseOptV parseStrV) none)
        (vseq (dfltField (lookupField m) "image_url" (parseOptV parseStrV) none)
          (vseq (dfltField (lookupField m) "category" (parseOptV parseStrV) none)
            (vseq (dfltField (lookupField m) "is_available" parseBoolV true)
              (vseq (dfltField (lookupField m) "branch_id" (parseOptV parseIntV) none)
                (dfltField (lookupField m) "ingredients"
                  (parseListV (objOf IngredientBase.parse)) [])))))))).map
    (fun x => ⟨x.1, x.2.1, x.2.2.1, x.2.2.2.1, x.2.2.2.2.1, x.2.2.2.2.2.1,
      x.2.2.2.2.2.2.1, x.2.2.2.2.2.2.2⟩)

/-- The `MenuItemUpdate` shape. -/
structure MenuItemUpdate where
  name : Option String
  price : Option Rat
  description : Option String
  image_url : Option String
  category : Option String
  is_available : Option Bool
  branch_id : Option Int
  ingredients : Option (List IngredientCreate)
  fields_set : List String
deriving DecidableEq, Repr

/-- The declared field names of `MenuItemUpdate`. -/
def MenuItemUpdate.fieldNames : List String :=
  ["name", "price", "description", "image_url", "category", "is_available",
   "branch_id", "ingredients"]

/-- Pydantic construction of `MenuItemUpdate`. -/
def MenuItemUpdate.parse (m : Payload) : Except ValidationError MenuItemUpdate :=
  (vseq (dfltField (lookupField m) "name" (parseOptV parseStrV) none)
    (vseq (dfltField (lookupField m) "price" (parseOptV parseFloatV) none)
      (vseq (dfltField (lookupField m) "description" (parseOptV parseStrV) none)
        (vseq (dfltField (lookupField m) "image_url" (parseOptV parseStrV) none)
          (vseq (dfltField (lookupField m) "category" (parseOptV parseStrV) none)
            (vseq (dfltField (lookupField m) "is_available" (parseOptV parseBoolV) none)
              (vseq (dfltField (lookupField m) "branch_id" (parseOptV parseIntV) none)
                (dfltField (lookupField m) "ingredients"
                  (parseOptV (parseListV (objOf IngredientBase.parse))) none)))))))).map
    (fun x => ⟨x.1, x.2.1, x.2.2.1, x.2.2.2.1, x.2.2.2.2.1, x.2.2.2.2.2.1,
      x.2.2.2.2.2.2.1, x.2.2.2.2.2.2.2,
      presentKeys (lookupField m) MenuItemUpdate.fieldNames⟩)

/-- The `MenuItemResponse` shape. -/
structure MenuItemResponse where
  name : String
  price : Rat
  description : Option String
  image_url : Option String
  category : Option String
  is_available : Bool
  branch_id : Option Int
  id : Int
  ingredients : List IngredientResponse
  created_at : PyDateTime
  updated_at : PyDateTime
deriving DecidableEq, Repr

/-- The `OrderItemCreate` shape. -/
structure OrderItemCreate where
  menu_item_id : Int
  quantity : Int
  special_instructions : Option String
deriving DecidableEq, Repr

/-- Pydantic construction of `OrderItemCreate`. -/
def OrderItemCreate.parse (m : Payload) : Except ValidationError OrderItemCreate :=
  (vseq (reqField (lookupField m) "menu_item_id" parseIntV)
    (vseq (reqField (lookupField m) "quantity" parseIntV)
      (dfltField (lookupField m) "special_instructions" (parseOptV parseStrV) none))).map
    (fun x => ⟨x.1, x.2.1, x.2.2⟩)

/-- The `OrderItemResponse` shape. -/
structure OrderItemResponse where
  id : Int
  menu_item_id : Int
  quantity : Int
  unit_price : Rat
  total_price : Rat
  special_instructions : Option String
  menu_item : Option MenuItemResponse
deriving DecidableEq, Repr

/-- The `OrderCreate` shape. -/
structure OrderCreate where
  branch_id : Int
  customer_name : Option String
  customer_email : Option String
  order_type : String
  items : List OrderItemCreate
deriving DecidableEq, Repr

/-- Pydantic construction of `OrderCreate` (note: `customer_email` is a
plain optional `str`, `order_type` is a free-form string defaulting to
"dine_in", and `items` is required but may be empty). -/
def OrderCreate.parse (m : Payload) : Except ValidationError OrderCreate :=
  (vseq (reqField (lookupField m) "branch_id" parseIntV)
    (vseq (dfltField (lookupField m) "customer_name" (parseOptV parseStrV) none)
      (vseq (dfltField (lookupField m) "customer_email" (parseOptV parseStrV) none)
        (vseq (dfltField (lookupField m) "order_type" parseStrV "dine_in")
          (reqField (lookupField m) "items"
            (parseListV (objOf OrderItemCreate.parse))))))).map
    (fun x => ⟨x.1, x.2.1, x.2.2.1, x.2.2.2.1, x.2.2.2.2⟩)

/-- The `OrderUpdate` shape. -/
structure OrderUpdate where
  status : Option String
  customer_name : Option String
  customer_email : Option String
  fields_set : List String
deriving DecidableEq, Repr

/-- The declared field names of `OrderUpdate`. -/
def OrderUpdate.fieldNames : List String :=
  ["status", "customer_name", "customer_email"]

/-- Pydantic construction of `OrderUpdate`. -/
def OrderUpdate.parse (m : Payload) : Except ValidationError OrderUpdate :=
  (vseq (dfltField (lookupField m) "status" (parseOptV parseStrV) none)
    (vseq (dfltField (lookupField m) "customer_name" (parseOptV parseStrV) none)
      (dfltField (lookupField m) "customer_email" (parseOptV parseStrV) none))).map
    (fun x => ⟨x.1, x.2.1, x.2.2,
      presentKeys (lookupField m) OrderUpdate.fieldNames⟩)

/-- The `OrderResponse` shape. -/
structure OrderResponse where
  id : Int
  branch_id : Int
  customer_name : Option String
  customer_email : Option String
  total_amount : Rat
  status : String
  order_type : String
  created_at : PyDateTime
  completed_at : Option PyDateTime
  items : List OrderItemResponse
deriving DecidableEq, Repr

/-- The `DailySaleCreate` shape. -/
structure DailySaleCreate where
  menu_item_id : Int
  branch_id : Int
  quantity : Int
deriving DecidableEq, Repr

/-- Pydantic construction of `DailySaleCreate`. -/
def DailySaleCreate.parse (m : Payload) : Except ValidationError DailySaleCreate :=
  (vseq (reqField (lookupField m) "menu_item_id" parseIntV)
    (vseq (reqField (lookupField m) "branch_id" parseIntV)
      (reqField (lookupField m) "quantity" parseIntV))).map
    (fun x => ⟨x.1, x.2.1, x.2.2⟩)

/-- The `DailySaleResponse` shape. -/
structure DailySaleResponse where
  id : Int
  menu_item_id : Int
  branch_id : Int
  quantity : Int
  revenue : Rat
  sale_date : PyDateTime
  menu_item : Option MenuItemResponse
deriving DecidableEq, Repr

/-- The `ExpenseCategoryBase` shape. -/
structure ExpenseCategoryBase where
  name : String
  description : Option String
  is_active : Bool
deriving DecidableEq, Repr

/-- Pydantic construction of `ExpenseCategoryBase`. -/
def ExpenseCategoryBase.parse (m : Payload) : Except ValidationError ExpenseCategoryBase :=
  (vseq (reqField (lookupField m) "name" parseStrV)
    (vseq (dfltField (lookupField m) "description" (parseOptV parseStrV) none)
      (dfltField (lookupField m) "is_active" parseBoolV true))).map
    (fun x => ⟨x.1, x.2.1, x.2.2⟩)

/-- The `AdminBase` shape: `email` is typed `EmailStr` and `role` the
`UserRole` enum with default `UserRole.WORKER`. -/
structure AdminBase where
  username : String
  email : String
  full_name : Option String
  role : UserRole
  branch_id : Option Int
deriving DecidableEq, Repr

/-- Pydantic construction of `AdminBase`. -/
def AdminBase.parse (m : Payload) : Except ValidationError AdminBase :=
  (vseq (reqField (lookupField m) "username" parseStrV)
    (vseq (reqField (lookupField m) "email" parseEmailV)
      (vseq (dfltField (lookupField m) "full_name" (parseOptV parseStrV) none)
        (vseq (dfltField (lookupField m) "role" parseUserRoleV UserRole.worker)
          (dfltField (lookupField m) "branch_id" (parseOptV parseIntV) none))))).map
    (fun x => ⟨x.1, x.2.1, x.2.2.1, x.2.2.2.1, x.2.2.2.2⟩)

/-- The `AdminCreate` shape: `AdminBase` plus a required password. -/
structure AdminCreate where
  username : String
  email : String
  full_name : Option String
  role : UserRole
  branch_id : Option Int
  password : String
deriving DecidableEq, Repr

/-- Pydantic construction of `AdminCreate`. -/
def AdminCreate.parse (m : Payload) : Except ValidationError AdminCreate :=
  (vseq (AdminBase.parse m)
    (reqField (lookupField m) "password" parseStrV)).map
    (fun x => ⟨x.1.username, x.1.email, x.1.full_name, x.1.role, x.1.branch_id, x.2⟩)

/-- The `AdminUpdate` shape. -/
structure AdminUpdate where
  username : Option String
  email : Option String
  full_name : Option String
  role : Option UserRole
  branch_id : Option Int
  is_active : Option Bool
  fields_set : List String
deriving DecidableEq, Repr

/-- The declared field names of `AdminUpdate`. -/
def AdminUpdate.fieldNames : List String :=
  ["username", "email", "full_name", "role", "branch_id", "is_active"]

/-- Pydantic construction of `AdminUpdate`. -/
def AdminUpdate.parse (m : Payload) : Except ValidationError AdminUpdate :=
  (vseq (dfltField (lookupField m) "username" (parseOptV parseStrV) none)
    (vseq (dfltField (lookupField m) "email" (parseOptV parseEmailV) none)
      (vseq (dfltField (lookupField m) "full_name" (parseOptV parseStrV) none)
        (vseq (dfltField (lookupField m) "role" (parseOptV parseUserRoleV) none)
          (vseq (dfltField (lookupField m) "branch_id" (parseOptV parseIntV) none)
            (dfltField (lookupField m) "is_active" (parseOptV parseBoolV) none)))))).map
    (fun x => ⟨x.1, x.2.1, x.2.2.1, x.2.2.2.1, x.2.2.2.2.1, x.2.2.2.2.2,
      presentKeys (lookupField m) AdminUpdate.fieldNames⟩)

/-- The `AdminLogin` shape. -/
structure AdminLogin where
  username : String
  password : String
deriving DecidableEq, Repr

/-- Pydantic construction of `AdminLogin`. -/
def AdminLogin.parse (m : Payload) : Except ValidationError AdminLogin :=
  (vseq (reqField (lookupField m) "username" parseStrV)
    (reqField (lookupField m) "password" parseStrV)).map
    (fun x => ⟨x.1, x.2⟩)

/-- The `AdminResponse` shape: `AdminBase` fields plus server-side fields
and an optional embedded `BranchResponse`.  The stored password hash of an
admin record is not among the declared fields. -/
structure AdminResponse where
  username : String
  email : String
  full_name : Option String
  role : UserRole
  branch_id : Option Int
  id : Int
  is_active : Bool
  is_superuser : Bool
  created_at : PyDateTime
  last_login : Option PyDateTime
  branch : Option BranchResponse
deriving DecidableEq, Repr

/-- The declared field names of `AdminResponse`: construction from an
attribute-bearing record reads exactly these attributes and no others. -/
def AdminResponse.fieldNames : List String :=
  ["username", "email", "full_name", "role", "branch_id", "id", "is_active",
   "is_superuser", "created_at", "last_login", "branch"]

/-- Construction of `AdminResponse` from an attribute-bearing source
(`from_attributes = True`): each declared field is read by name and
validated; attributes outside the declared set are never read. -/
def AdminResponse.from_attributes (g : Getter) : Except ValidationError AdminResponse :=
  (vseq (reqField g "username" parseStrV)
    (vseq (reqField g "email" parseEmailV)
      (vseq (dfltField g "full_name" (parseOptV parseStrV) none)
        (vseq (dfltField g "role" parseUserRoleV UserRole.worker)
          (vseq (dfltField g "branch_id" (parseOptV parseIntV) none)
            (vseq (reqField g "id" parseIntV)
              (vseq (reqField g "is_active" parseBoolV)
                (vseq (reqField g "is_superuser" parseBoolV)
                  (vseq (reqField g "created_at" parseDateTimeV)
                    (vseq (dfltField g "last_login" (parseOptV parseDateTimeV) none)
                      (dfltField g "branch"
                        (parseOptV (objOf BranchResponse.parse)) none))))))))))).map
    (fun x => ⟨x.1, x.2.1, x.2.2.1, x.2.2.2.1, x.2.2.2.2.1, x.2.2.2.2.2.1,
      x.2.2.2.2.2.2.1, x.2.2.2.2.2.2.2.1, x.2.2.2.2.2.2.2.2.1,
      x.2.2.2.2.2.2.2.2.2.1, x.2.2.2.2.2.2.2.2.2.2⟩)

/-- Pydantic construction of `AdminResponse` from a payload. -/
def AdminResponse.parse (m : Payload) : Except ValidationError AdminResponse :=
  AdminResponse.from_attributes (lookupField m)

/-- The `InventoryBase` shape (note the `minimum_threshold` default is `0`,
not null). -/
structure InventoryBase where
  item_name : String
  current_stock : Rat
  unit : String
  minimum_threshold : Option Rat
  cost_per_unit : Option Rat
  supplier : Option String
  branch_id : Int
deriving DecidableEq, Repr

/-- Pydantic construction of `InventoryBase`. -/
def InventoryBase.parse (m : Payload) : Except ValidationError InventoryBase :=
  (vseq (reqField (lookupField m) "item_name" parseStrV)
    (vseq (reqField (lookupField m) "current_stock" parseFloatV)
      (vseq (reqField (lookupField m) "unit" parseStrV)
        (vseq (dfltField (lookupField m) "minimum_threshold" (parseOptV parseFloatV) (some 0))
          (vseq (dfltField (lookupField m) "cost_per_unit" (parseOptV parseFloatV) none)
            (vseq (dfltField (lookupField m) "supplier" (parseOptV parseStrV) none)
              (reqField (lookupField m) "branch_id" parseIntV))))))).map
    (fun x => ⟨x.1, x.2.1, x.2.2.1, x.2.2.2.1, x.2.2.2.2.1, x.2.2.2.2.2.1,
      x.2.2.2.2.2.2⟩)

/-- `InventoryCreate(InventoryBase): pass` — identical field set. -/
abbrev InventoryCreate := InventoryBase

/-- `InventoryCreate` construction is `InventoryBase` construction. -/
abbrev InventoryCreate.parse := InventoryBase.parse

/-- The `InventoryUpdate` shape. -/
structure InventoryUpdate where
  item_name : Option String
  current_stock : Option Rat
  unit : Option String
  minimum_threshold : Option Rat
  cost_per_unit : Option Rat
  supplier : Option String
  fields_set : List String
deriving DecidableEq, Repr

/-- The declared field names of `InventoryUpdate`. -/
def InventoryUpdate.fieldNames : List String :=
  ["item_name", "current_stock", "unit", "minimum_threshold", "cost_per_unit",
   "supplier"]

/-- Pydantic construction of `InventoryUpdate`. -/
def InventoryUpdate.parse (m : Payload) : Except ValidationError InventoryUpdate :=
  (vseq (dfltField (lookupField m) "item_name" (parseOptV parseStrV) none)
    (vseq (dfltField (lookupField m) "current_stock" (parseOptV parseFloatV) none)
      (vseq (dfltField (lookupField m) "unit" (parseOptV parseStrV) none)
        (vseq (dfltField (lookupField m) "minimum_threshold" (parseOptV parseFloatV) none)
          (vseq (dfltField (lookupField m) "cost_per_unit" (parseOptV parseFloatV) none)
            (dfltField (lookupField m) "supplier" (parseOptV parseStrV) none)))))).map
    (fun x => ⟨x.1, x.2.1, x.2.2.1, x.2.2.2.1, x.2.2.2.2.1, x.2.2.2.2.2,
      presentKeys (lookupField m) InventoryUpdate.fieldNames⟩)

/-- The `InventoryResponse` shape. -/
structure InventoryResponse where
  item_name : String
  current_stock : Rat
  unit : String
  minimum_threshold : Option Rat
  cost_per_unit : Option Rat
  supplier : Option String
  branch_id : Int
  id : Int
  last_restocked : Option PyDateTime
  created_at : PyDateTime
  updated_at : PyDateTime
deriving DecidableEq, Repr

/-- Serialization of an optional field: null on the wire when absent. -/
def sOpt {α : Type} (f : α → Value) (o : Option α) : Value :=
  o.elim Value.vnone f

/-- Serialization of a `datetime` (numeric timestamp in this embedding). -/
def sDT (d : PyDateTime) : Value :=
  Value.vint d.ts

/-- The string value of a `UserRole`, as the enum serializes on the wire. -/
def UserRole.val : UserRole → String
  | UserRole.admin => "admin"
  | UserRole.worker => "worker"

/-- Wire serialization of a `BranchResponse` (pydantic `model_dump`). -/
def BranchResponse.model_dump (r : BranchResponse) : Payload :=
  [("name", Value.vstr r.name), ("location", sOpt Value.vstr r.location),
   ("address", sOpt Value.vstr r.address), ("phone", sOpt Value.vstr r.phone),
   ("email", sOpt Value.vstr r.email), ("is_active", Value.vbool r.is_active),
   ("id", Value.vint r.id), ("created_at", sDT r.created_at),
   ("updated_at", sDT r.updated_at)]

/-- Wire serialization of a `DailyExpenseResponse`. -/
def DailyExpenseResponse.model_dump (r : DailyExpenseResponse) : Payload :=
  [("category", Value.vstr r.category), ("item_name", Value.vstr r.item_name),
   ("description", sOpt Value.vstr r.description),
   ("quantity", sOpt Value.vfloat r.quantity), ("unit", sOpt Value.vstr r.unit),
   ("unit_cost", Value.vfloat r.unit_cost),
   ("total_amount", Value.vfloat r.total_amount),
   ("expense_date", sOpt sDT r.expense_date),
   ("receipt_number", sOpt Value.vstr r.receipt_number),
   ("vendor", sOpt Value.vstr r.vendor), ("id", Value.vint r.id),
   ("branch_id", Value.vint r.branch_id), ("created_by", Value.vint r.created_by),
   ("created_at", sDT r.created_at)]

/-- Wire serialization of an `IngredientResponse`. -/
def IngredientResponse.model_dump (r : IngredientResponse) : Payload :=
  [("name", Value.vstr r.name), ("quantity", Value.vfloat r.quantity),
   ("unit", Value.vstr r.unit), ("image_url", sOpt Value.vstr r.image_url),
   ("id", Value.vint r.id), ("menu_item_id", Value.vint r.menu_item_id)]

/-- Wire serialization of a `MenuItemResponse` (nested ingredient models
dump to nested objects). -/
def MenuItemResponse.model_dump (r : MenuItemResponse) : Payload :=
  [("name", Value.vstr r.name), ("price", Value.vfloat r.price),
   ("description", sOpt Value.vstr r.description),
   ("image_url", sOpt Value.vstr r.image_url),
   ("category", sOpt Value.vstr r.category),
   ("is_available", Value.vbool r.is_available),
   ("branch_id", sOpt Value.vint r.branch_id), ("id", Value.vint r.id),
   ("ingredients",
     Value.vlist (r.ingredients.map (fun ig => Value.vobj ig.model_dump))),
   ("created_at", sDT r.created_at), ("updated_at", sDT r.updated_at)]

/-- Wire serialization of an `OrderItemResponse`. -/
def OrderItemResponse.model_dump (r : OrderItemResponse) : Payload :=
  [("id", Value.vint r.id), ("menu_item_id", Value.vint r.menu_item_id),
   ("quantity", Value.vint r.quantity), ("unit_price", Value.vfloat r.unit_price),
   ("total_price", Value.vfloat r.total_price),
   ("special_instructions", sOpt Value.vstr r.special_instructions),
   ("menu_item", sOpt (fun mi => Value.vobj mi.model_dump) r.menu_item)]

/-- Wire serialization of an `OrderResponse`. -/
def OrderResponse.model_dump (r : OrderResponse) : Payload :=
  [("id", Value.vint r.id), ("branch_id", Value.vint r.branch_id),
   ("customer_name", sOpt Value.vstr r.customer_name),
   ("customer_email", sOpt Value.vstr r.customer_email),
   ("total_amount", Value.vfloat r.total_amount),
   ("status", Value.vstr r.status), ("order_type", Value.vstr r.order_type),
   ("created_at", sDT r.created_at), ("completed_at", sOpt sDT r.completed_at),
   ("items", Value.vlist (r.items.map (fun oi => Value.vobj oi.model_dump)))]

/-- Wire serialization of a `DailySaleResponse`. -/
def DailySaleResponse.model_dump (r : DailySaleResponse) : Payload :=
  [("id", Value.vint r.id), ("menu_item_id", Value.vint r.menu_item_id),
   ("branch_id", Value.vint r.branch_id), ("quantity", Value.vint r.quantity),
   ("revenue", Value.vfloat r.revenue), ("sale_date", sDT r.sale_date),
   ("menu_item", sOpt (fun mi => Value.vobj mi.model_dump) r.menu_item)]

/-- Wire serialization of an `InventoryResponse`. -/
def InventoryResponse.model_dump (r : InventoryResponse) : Payload :=
  [("item_name", Value.vstr r.item_name),
   ("current_stock", Value.vfloat r.current_stock), ("unit", Value.vstr r.unit),
   ("minimum_threshold", sOpt Value.vfloat r.minimum_threshold),
   ("cost_per_unit", sOpt Value.vfloat r.cost_per_unit),
   ("supplier", sOpt Value.vstr r.supplier), ("branch_id", Value.vint r.branch_id),
   ("id", Value.vint r.id), ("last_restocked", sOpt sDT r.last_restocked),
   ("created_at", sDT r.created_at), ("updated_at", sDT r.updated_at)]

/-- Wire serialization of an `AdminResponse` (the enum dumps as its string
value, the embedded branch as a nested object; there is no password field
to dump). -/
def AdminResponse.model_dump (r : AdminResponse) : Payload :=
  [("username", Value.vstr r.username), ("email", Value.vstr r.email),
   ("full_name", sOpt Value.vstr r.full_name),
   ("role", Value.vstr r.role.val),
   ("branch_id", sOpt Value.vint r.branch_id), ("id", Value.vint r.id),
   ("is_active", Value.vbool r.is_active),
   ("is_superuser", Value.vbool r.is_superuser),
   ("created_at", sDT r.created_at), ("last_login", sOpt sDT r.last_login),
   ("branch", sOpt (fun b => Value.vobj b.model_dump) r.branch)]

/-- The shared-field projection of an `IngredientResponse` onto
`IngredientCreate`. -/
def ingredientOfResponse (ig : IngredientResponse) : IngredientCreate :=
  ⟨ig.name, ig.quantity, ig.unit, ig.image_url⟩

/-- The shared-field projection of an `OrderItemResponse` onto
`OrderItemCreate`. -/
def orderItemOfResponse (oi : OrderItemResponse) : OrderItemCreate :=
  ⟨oi.menu_item_id, oi.quantity, oi.special_instructions⟩

/-- A construction result never carries an empty error report: when it
fails, at least one per-field error is listed. -/
def neverEmptyErr {α : Type} (e : Except ValidationError α) : Prop :=
  ∀ errs, e = .error errs → errs ≠ []

/-- A construction result is either a fully populated instance or a
`ValidationError` with at least one per-field entry — nothing partial and
no other error kind. -/
def wholeOrError {α : Type} (e : Except ValidationError α) : Prop :=
  (∃ x, e = .ok x) ∨ (∃ errs, e = .error errs ∧ errs ≠ [])

/-- A stored admin record as an attribute-bearing object: all declared
`AdminResponse` attributes plus two internal-only attributes (a password
hash and an internal flag) that no schema declares. -/
def adminRecordWithSecrets : Getter :=
  lookupField
    [("username", Value.vstr "alice"), ("email", Value.vstr "alice@x.org"),
     ("full_name", Value.vnone), ("role", Value.vstr "admin"),
     ("branch_id", Value.vnone), ("id", Value.vint 7),
     ("is_active", Value.vbool true), ("is_superuser", Value.vbool false),
     ("created_at", Value.vint 100), ("last_login", Value.vnone),
     ("branch", Value.vnone), ("hashed_password", Value.vstr "s3cr3t-hash"),
     ("internal_flag", Value.vbool true)]

/-- The same stored admin record with the internal-only attributes absent:
it agrees with `adminRecordWithSecrets` on every declared attribute. -/
def adminRecordPublic : Getter :=
  lookupField
    [("username", Value.vstr "alice"), ("email", Value.vstr "alice@x.org"),
     ("full_name", Value.vnone), ("role", Value.vstr "admin"),
     ("branch_id", Value.vnone), ("id", Value.vint 7),
     ("is_active", Value.vbool true), ("is_superuser", Value.vbool false),
     ("created_at", Value.vint 100), ("last_login", Value.vnone),
     ("branch", Value.vnone)]

end Schemas

namespace Schemas

/-- Unfolding lemma: a mapped construction result is `ok` exactly when the
underlying result is `ok` of a preimage. -/
theorem emap_ok {α β : Type} {e : Except ValidationError α} {f : α → β} {y : β} :
    e.map f = .ok y ↔ ∃ x, e = .ok x ∧ f x = y := by
  cases e <;> simp [Except.map]

/-- Unfolding lemma: a combined pair of field results is `ok` exactly when
both components are. -/
theorem vseq_ok_iff {α β : Type} {a : Except ValidationError α}
    {b : Except ValidationError β} {x : α × β} :
    vseq a b = .ok x ↔ a = .ok x.1 ∧ b = .ok x.2 := by
  cases a <;> cases b <;> cases x <;> simp [vseq]

/-- A required field reads only its own attribute of the source. -/
theorem reqField_congr {α : Type} (g1 g2 : Getter) (n : String)
    (c : Value → Except ErrKind α) (h : g1 n = g2 n) :
    reqField g1 n c = reqField g2 n c := by
  unfold reqField
  rw [h]

/-- A defaulted field reads only its own attribute of the source. -/
theorem dfltField_congr {α : Type} (g1 g2 : Getter) (n : String)
    (c : Value → Except ErrKind α) (d : α) (h : g1 n = g2 n) :
    dfltField g1 n c d = dfltField g2 n c d := by
  unfold dfltField
  rw [h]

/-- A failed required field always reports exactly one named error. -/
theorem reqField_ne {α : Type} (g : Getter) (n : String)
    (c : Value → Except ErrKind α) : neverEmptyErr (reqField g n c) := by
  unfold neverEmptyErr reqField
  cases g n with
  | none => simp
  | some v => cases h : c v <;> simp [h]

/-- A failed defaulted field always reports exactly one named error. -/
theorem dfltField_ne {α : Type} (g : Getter) (n : String)
    (c : Value → Except ErrKind α) (d : α) : neverEmptyErr (dfltField g n c d) := by
  unfold neverEmptyErr dfltField
  cases g n with
  | none => simp
  | some v => cases h : c v <;> simp [h]

/-- Combining two field results that never report emptily again never
reports emptily. -/
theorem vseq_ne {α β : Type} {a : Except ValidationError α}
    {b : Except ValidationError β} (ha : neverEmptyErr a) (hb : neverEmptyErr b) :
    neverEmptyErr (vseq a b) := by
  intro errs h
  unfold vseq at h
  cases a with
  | ok x =>
    cases b with
    | ok y => simp at h
    | error f =>
      simp at h
      subst h
      exact hb f rfl
  | error e =>
    cases b with
    | ok y =>
      simp at h
      subst h
      exact ha e rfl
    | error f =>
      simp at h
      subst h
      intro hnil
      exact ha e rfl (List.append_eq_nil.mp hnil).1

/-- Mapping the assembled instance preserves the error report. -/
theorem map_ne {α β : Type} {e : Except ValidationError α} (f : α → β)
    (h : neverEmptyErr e) : neverEmptyErr (e.map f) := by
  unfold neverEmptyErr at h ⊢
  cases e <;> simp_all [Except.map]

/-- Either a full instance or a nonempty error report. -/
theorem wholeOrError_of_ne {α : Type} (e : Except ValidationError α)
    (h : neverEmptyErr e) : wholeOrError e := by
  cases e with
  | ok x => exact Or.inl ⟨x, rfl⟩
  | error errs => exact Or.inr ⟨errs, rfl, h errs rfl⟩

/-- C1: `validate_image_url` succeeds (returning the string unchanged) iff
the lower-cased string ends with one of `.jpg`, `.jpeg`, `.png`, `.webp`,
`.gif`; otherwise it fails with the `ValueError` message "Invalid image
format".  In particular "photo.JPG" is accepted while "photo.bmp" and
"http://x/img.exe" are rejected, also through the full
`ImageUploadResponse` constructor. -/
theorem validate_image_url_spec :
    (∀ s : String,
      (validate_image_url s = Except.ok s ↔
        (pyEndsWith (pyLower s) ".jpg" ∨ pyEndsWith (pyLower s) ".jpeg" ∨
         pyEndsWith (pyLower s) ".png" ∨ pyEndsWith (pyLower s) ".webp" ∨
         pyEndsWith (pyLower s) ".gif")) ∧
      (validate_image_url s = Except.error (ErrKind.valueError "Invalid image format") ↔
        ¬(pyEndsWith (pyLower s) ".jpg" ∨ pyEndsWith (pyLower s) ".jpeg" ∨
          pyEndsWith (pyLower s) ".png" ∨ pyEndsWith (pyLower s) ".webp" ∨
          pyEndsWith (pyLower s) ".gif"))) ∧
    validate_image_url "photo.JPG" = Except.ok "photo.JPG" ∧
    validate_image_url "photo.bmp" =
      Except.error (ErrKind.valueError "Invalid image format") ∧
    ImageUploadResponse.parse
        [("url", Value.vstr "http://x/img.exe"), ("filename", Value.vstr "img.exe"),
         ("size", Value.vint 10)] =
      Except.error [("url", ErrKind.valueError "Invalid image format")] := by
  refine ⟨fun s => ?_, rfl, rfl, rfl⟩
  unfold validate_image_url allowed_extensions
  simp only [List.any_cons, List.any_nil, Bool.or_false, Bool.or_eq_true]
  constructor
  · by_cases h : (pyEndsWith (pyLower s) ".jpg" = true ∨ pyEndsWith (pyLower s) ".jpeg" = true ∨
        pyEndsWith (pyLower s) ".png" = true ∨ pyEndsWith (pyLower s) ".webp" = true ∨
        pyEndsWith (pyLower s) ".gif" = true) <;>
      simp [h]
  · by_cases h : (pyEndsWith (pyLower s) ".jpg" = true ∨ pyEndsWith (pyLower s) ".jpeg" = true ∨
        pyEndsWith (pyLower s) ".png" = true ∨ pyEndsWith (pyLower s) ".webp" = true ∨
        pyEndsWith (pyLower s) ".gif" = true) <;>
      simp [h]

/-- `BranchBase` construction never reports emptily. -/
theorem branchBase_parse_ne (m : Payload) : neverEmptyErr (BranchBase.parse m) := by
  unfold BranchBase.parse
  apply map_ne
  repeat
    first
    | apply vseq_ne
    | apply reqField_ne
    | apply dfltField_ne

/-- `BranchUpdate` construction never reports emptily. -/
theorem branchUpdate_parse_ne (m : Payload) : neverEmptyErr (BranchUpdate.parse m) := by
  unfold BranchUpdate.parse
  apply map_ne
  repeat
    first
    | apply vseq_ne
    | apply reqField_ne
    | apply dfltField_ne

/-- `ExpenseCategoryBase` construction never reports emptily. -/
theorem expenseCategoryBase_parse_ne (m : Payload) :
    neverEmptyErr (ExpenseCategoryBase.parse m) := by
  unfold ExpenseCategoryBase.parse
  apply map_ne
  repeat
    first
    | apply vseq_ne
    | apply reqField_ne
    | apply dfltField_ne

/-- `DailyExpenseBase` construction never reports emptily. -/
theorem dailyExpenseBase_parse_ne (m : Payload) :
    neverEmptyErr (DailyExpenseBase.parse m) := by
  unfold DailyExpenseBase.parse
  apply map_ne
  repeat
    first
    | apply vseq_ne
    | apply reqField_ne
    | apply dfltField_ne

/-- `DailyExpenseCreate` construction never reports emptily. -/
theorem dailyExpenseCreate_parse_ne (m : Payload) :
    neverEmptyErr (DailyExpenseCreate.parse m) := by
  unfold DailyExpenseCreate.parse
  apply map_ne
  repeat
    first
    | apply vseq_ne
    | apply reqField_ne
    | apply dfltField_ne
    | apply dailyExpenseBase_parse_ne

/-- `DailyExpenseUpdate` construction never reports emptily. -/
theorem dailyExpenseUpdate_parse_ne (m : Payload) :
    neverEmptyErr (DailyExpenseUpdate.parse m) := by
  unfold DailyExpenseUpdate.parse
  apply map_ne
  repeat
    first
    | apply vseq_ne
    | apply reqField_ne
    | apply dfltField_ne

/-- `QuickExpenseCreate` construction never reports emptily. -/
theorem quickExpenseCreate_parse_ne (m : Payload) :
    neverEmptyErr (QuickExpenseCreate.parse m) := by
  unfold QuickExpenseCreate.parse
  apply map_ne
  repeat
    first
    | apply vseq_ne
    | apply reqField_ne
    | apply dfltField_ne

/-- `IngredientBase` construction never reports emptily. -/
theorem ingredientBase_parse_ne (m : Payload) :
    neverEmptyErr (IngredientBase.parse m) := by
  unfold IngredientBase.parse
  apply map_ne
  repeat
    first
    | apply vseq_ne
    | apply reqField_ne
    | apply dfltField_ne

/-- `IngredientUpdate` construction never reports emptily. -/
theorem ingredientUpdate_parse_ne (m : Payload) :
    neverEmptyErr (IngredientUpdate.parse m) := by
  unfold IngredientUpdate.parse
  apply map_ne
  repeat
    first
    | apply vseq_ne
    | apply reqField_ne
    | apply dfltField_ne

/-- `MenuItemCreate` construction never reports emptily. -/
theorem menuItemCreate_parse_ne (m : Payload) :
    neverEmptyErr (MenuItemCreate.parse m) := by
  unfold MenuItemCreate.parse
  apply map_ne
  repeat
    first
    | apply vseq_ne
    | apply reqField_ne
    | apply dfltField_ne

/-- `MenuItemUpdate` construction never reports emptily. -/
theorem menuItemUpdate_parse_ne (m : Payload) :
    neverEmptyErr (MenuItemUpdate.parse m) := by
  unfold MenuItemUpdate.parse
  apply map_ne
  repeat
    first
    | apply vseq_ne
    | apply reqField_ne
    | apply dfltField_ne

/-- `OrderItemCreate` construction never reports emptily. -/
theorem orderItemCreate_parse_ne (m : Payload) :
    neverEmptyErr (OrderItemCreate.parse m) := by
  unfold OrderItemCreate.parse
  apply map_ne
  repeat
    first
    | apply vseq_ne
    | apply reqField_ne
    | apply dfltField_ne

/-- `OrderCreate` construction never reports emptily. -/
theorem orderCreate_parse_ne (m : Payload) : neverEmptyErr (OrderCreate.parse m) := by
  unfold OrderCreate.parse
  apply map_ne
  repeat
    first
    | apply vseq_ne
    | apply reqField_ne
    | apply dfltField_ne

/-- `OrderUpdate` construction never reports emptily. -/
theorem orderUpdate_parse_ne (m : Payload) : neverEmptyErr (OrderUpdate.parse m) := by
  unfold OrderUpdate.parse
  apply map_ne
  repeat
    first
    | apply vseq_ne
    | apply reqField_ne
    | apply dfltField_ne

/-- `DailySaleCreate` construction never reports emptily. -/
theorem dailySaleCreate_parse_ne (m : Payload) :
    neverEmptyErr (DailySaleCreate.parse m) := by
  unfold DailySaleCreate.parse
  apply map_ne
  repeat
    first
    | apply vseq_ne
    | apply reqField_ne
    | apply dfltField_ne

/-- `AdminBase` construction never reports emptily. -/
theorem adminBase_parse_ne (m : Payload) : neverEmptyErr (AdminBase.parse m) := by
  unfold AdminBase.parse
  apply map_ne
  repeat
    first
    | apply vseq_ne
    | apply reqField_ne
    | apply dfltField_ne

/-- `AdminCreate` construction never reports emptily. -/
theorem adminCreate_parse_ne (m : Payload) : neverEmptyErr (AdminCreate.parse m) := by
  unfold AdminCreate.parse
  apply map_ne
  repeat
    first
    | apply vseq_ne
    | apply reqField_ne
    | apply dfltField_ne
    | apply adminBase_parse_ne

/-- `AdminUpdate` construction never reports emptily. -/
theorem adminUpdate_parse_ne (m : Payload) : neverEmptyErr (AdminUpdate.parse m) := by
  unfold AdminUpdate.parse
  apply map_ne
  repeat
    first
    | apply vseq_ne
    | apply reqField_ne
    | apply dfltField_ne

/-- `AdminLogin` construction never reports emptily. -/
theorem adminLogin_parse_ne (m : Payload) : neverEmptyErr (AdminLogin.parse m) := by
  unfold AdminLogin.parse
  apply map_ne
  repeat
    first
    | apply vseq_ne
    | apply reqField_ne
    | apply dfltField_ne

/-- `InventoryBase` construction never reports emptily. -/
theorem inventoryBase_parse_ne (m : Payload) :
    neverEmptyErr (InventoryBase.parse m) := by
  unfold InventoryBase.parse
  apply map_ne
  repeat
    first
    | apply vseq_ne
    | apply reqField_ne
    | apply dfltField_ne

/-- `InventoryUpdate` construction never reports emptily. -/
theorem inventoryUpdate_parse_ne (m : Payload) :
    neverEmptyErr (InventoryUpdate.parse m) := by
  unfold InventoryUpdate.parse
  apply map_ne
  repeat
    first
    | apply vseq_ne
    | apply reqField_ne
    | apply dfltField_ne

/-- `ImageUploadResponse` construction never reports emptily. -/
theorem imageUploadResponse_parse_ne (m : Payload) :
    neverEmptyErr (ImageUploadResponse.parse m) := by
  unfold ImageUploadResponse.parse
  apply map_ne
  repeat
    first
    | apply vseq_ne
    | apply reqField_ne
    | apply dfltField_ne

/-- Round trip of one serialized `IngredientResponse` object through the
`IngredientCreate` constructor. -/
theorem ingredient_obj_roundtrip (ig : IngredientResponse) :
    objOf IngredientBase.parse (Value.vobj ig.model_dump) =
      .ok (ingredientOfResponse ig) := by
  rcases ig with ⟨n, q, u, iu, i, mid⟩
  cases iu <;> rfl

/-- Round trip of a serialized ingredient list through the element-wise
`IngredientCreate` constructor. -/
theorem mapElems_ingredients (xs : List IngredientResponse) :
    mapElems (objOf IngredientBase.parse)
        (xs.map (fun ig => Value.vobj ig.model_dump)) =
      .ok (xs.map ingredientOfResponse) := by
  induction xs with
  | nil => rfl
  | cons a as ih => simp [mapElems, ingredient_obj_roundtrip, ih]

/-- Round trip of one serialized `OrderItemResponse` object through the
`OrderItemCreate` constructor. -/
theorem orderItem_obj_roundtrip (oi : OrderItemResponse) :
    objOf OrderItemCreate.parse (Value.vobj oi.model_dump) =
      .ok (orderItemOfResponse oi) := by
  rcases oi with ⟨i, mid, q, up, tp, si, mi⟩
  cases si <;> rfl

/-- Round trip of a serialized order-item list through the element-wise
`OrderItemCreate` constructor. -/
theorem mapElems_orderItems (xs : List OrderItemResponse) :
    mapElems (objOf OrderItemCreate.parse)
        (xs.map (fun oi => Value.vobj oi.model_dump)) =
      .ok (xs.map orderItemOfResponse) := by
  induction xs with
  | nil => rfl
  | cons a as ih => simp [mapElems, orderItem_obj_roundtrip, ih]


/-- C2 counterexample: the claim includes `UserResponse` among the shapes
whose `role` is restricted to the closed enum, but `UserResponse` declares
`role` as a plain `str`, so construction with `role="manager"` succeeds —
refuting "succeeds iff r is exactly admin or worker" for `UserResponse`. -/
theorem userResponse_accepts_role_manager :
    UserResponse.parse
        [("id", Value.vint 1), ("username", Value.vstr "u"),
         ("email", Value.vstr "e"), ("full_name", Value.vstr "f"),
         ("role", Value.vstr "manager"), ("is_active", Value.vbool true),
         ("is_superuser", Value.vbool false), ("created_at", Value.vint 0)] =
      .ok ⟨1, "u", "e", "f", "manager", none, true, false, ⟨0⟩⟩ := rfl

/-- C2 (amended): for the Admin shapes — `AdminBase`, `AdminCreate`,
`AdminUpdate`, `AdminResponse` — construction with `role=r` (other fields
valid) succeeds iff `r` is exactly "admin" or "worker" (case-sensitive);
`UserResponse`, by contrast, declares `role` as a plain string and accepts
every role value. -/
theorem role_enum_validation_amended (r : String) :
    ((∃ a, AdminBase.parse
        [("username", Value.vstr "alice"), ("email", Value.vstr "alice@example.com"),
         ("role", Value.vstr r)] = .ok a) ↔ (r = "admin" ∨ r = "worker")) ∧
    ((∃ a, AdminCreate.parse
        [("username", Value.vstr "alice"), ("email", Value.vstr "alice@example.com"),
         ("password", Value.vstr "pw"), ("role", Value.vstr r)] = .ok a) ↔
      (r = "admin" ∨ r = "worker")) ∧
    ((∃ a, AdminUpdate.parse [("role", Value.vstr r)] = .ok a) ↔
      (r = "admin" ∨ r = "worker")) ∧
    ((∃ a, AdminResponse.parse
        [("username", Value.vstr "alice"), ("email", Value.vstr "alice@example.com"),
         ("role", Value.vstr r), ("id", Value.vint 1),
         ("is_active", Value.vbool true), ("is_superuser", Value.vbool false),
         ("created_at", Value.vint 0)] = .ok a) ↔
      (r = "admin" ∨ r = "worker")) ∧
    UserResponse.parse
        [("id", Value.vint 1), ("username", Value.vstr "u"),
         ("email", Value.vstr "e"), ("full_name", Value.vstr "f"),
         ("role", Value.vstr r), ("is_active", Value.vbool true),
         ("is_superuser", Value.vbool false), ("created_at", Value.vint 0)] =
      .ok ⟨1, "u", "e", "f", r, none, true, false, ⟨0⟩⟩ := by
  have hemail : parseEmailV (Value.vstr "alice@example.com") =
      .ok "alice@example.com" := rfl
  by_cases h1 : r = "admin"
  · subst h1
    exact ⟨iff_of_true ⟨⟨"alice", "alice@example.com", none, UserRole.admin, none⟩,
        rfl⟩ (Or.inl rfl),
      iff_of_true ⟨⟨"alice", "alice@example.com", none, UserRole.admin, none, "pw"⟩,
        rfl⟩ (Or.inl rfl),
      iff_of_true ⟨⟨none, none, none, some UserRole.admin, none, none, ["role"]⟩,
        rfl⟩ (Or.inl rfl),
      iff_of_true ⟨⟨"alice", "alice@example.com", none, UserRole.admin, none, 1,
        true, false, ⟨0⟩, none, none⟩, rfl⟩ (Or.inl rfl),
      rfl⟩
  · by_cases h2 : r = "worker"
    · subst h2
      exact ⟨iff_of_true ⟨⟨"alice", "alice@example.com", none, UserRole.worker, none⟩,
          rfl⟩ (Or.inr rfl),
        iff_of_true ⟨⟨"alice", "alice@example.com", none, UserRole.worker, none, "pw"⟩,
          rfl⟩ (Or.inr rfl),
        iff_of_true ⟨⟨none, none, none, some UserRole.worker, none, none, ["role"]⟩,
          rfl⟩ (Or.inr rfl),
        iff_of_true ⟨⟨"alice", "alice@example.com", none, UserRole.worker, none, 1,
          true, false, ⟨0⟩, none, none⟩, rfl⟩ (Or.inr rfl),
        rfl⟩
    · refine ⟨?_, ?_, ?_, ?_, rfl⟩ <;>
        simp [AdminBase.parse, AdminCreate.parse, AdminUpdate.parse,
          AdminResponse.parse, AdminResponse.from_attributes, reqField, dfltField,
          lookupField, hemail, parseStrV, parseUserRoleV, parseOptV, parseIntV,
          parseBoolV, parseDateTimeV, vseq, h1, h2, Except.map]

/-- C3: each of the seven Update shapes accepts the empty payload, yielding
an instance with every value defaulted and `fields_set` empty (every field
unset); explicitly supplying null for a field yields the same `none` value
but records the field in `fields_set`, a distinct instance — so absence is
distinguishable from an explicit null. -/
theorem update_shapes_empty_payload_unset :
    (BranchUpdate.parse [] = .ok ⟨none, none, none, none, none, none, []⟩ ∧
      ∀ f ∈ BranchUpdate.fieldNames,
        BranchUpdate.parse [(f, Value.vnone)] =
          .ok ⟨none, none, none, none, none, none, [f]⟩ ∧
        BranchUpdate.parse [(f, Value.vnone)] ≠ BranchUpdate.parse []) ∧
    (DailyExpenseUpdate.parse [] =
        .ok ⟨none, none, none, none, none, none, none, none, none, none, []⟩ ∧
      ∀ f ∈ DailyExpenseUpdate.fieldNames,
        DailyExpenseUpdate.parse [(f, Value.vnone)] =
          .ok ⟨none, none, none, none, none, none, none, none, none, none, [f]⟩ ∧
        DailyExpenseUpdate.parse [(f, Value.vnone)] ≠ DailyExpenseUpdate.parse []) ∧
    (IngredientUpdate.parse [] = .ok ⟨none, none, none, none, []⟩ ∧
      ∀ f ∈ IngredientUpdate.fieldNames,
        IngredientUpdate.parse [(f, Value.vnone)] =
          .ok ⟨none, none, none, none, [f]⟩ ∧
        IngredientUpdate.parse [(f, Value.vnone)] ≠ IngredientUpdate.parse []) ∧
    (MenuItemUpdate.parse [] =
        .ok ⟨none, none, none, none, none, none, none, none, []⟩ ∧
      ∀ f ∈ MenuItemUpdate.fieldNames,
        MenuItemUpdate.parse [(f, Value.vnone)] =
          .ok ⟨none, none, none, none, none, none, none, none, [f]⟩ ∧
        MenuItemUpdate.parse [(f, Value.vnone)] ≠ MenuItemUpdate.parse []) ∧
    (OrderUpdate.parse [] = .ok ⟨none, none, none, []⟩ ∧
      ∀ f ∈ OrderUpdate.fieldNames,
        OrderUpdate.parse [(f, Value.vnone)] = .ok ⟨none, none, none, [f]⟩ ∧
        OrderUpdate.parse [(f, Value.vnone)] ≠ OrderUpdate.parse []) ∧
    (AdminUpdate.parse [] = .ok ⟨none, none, none, none, none, none, []⟩ ∧
      ∀ f ∈ AdminUpdate.fieldNames,
        AdminUpdate.parse [(f, Value.vnone)] =
          .ok ⟨none, none, none, none, none, none, [f]⟩ ∧
        AdminUpdate.parse [(f, Value.vnone)] ≠ AdminUpdate.parse []) ∧
    (InventoryUpdate.parse [] = .ok ⟨none, none, none, none, none, none, []⟩ ∧
      ∀ f ∈ InventoryUpdate.fieldNames,
        InventoryUpdate.parse [(f, Value.vnone)] =
          .ok ⟨none, none, none, none, none, none, [f]⟩ ∧
        InventoryUpdate.parse [(f, Value.vnone)] ≠ InventoryUpdate.parse []) :=
  ⟨⟨by decide, by decide⟩, ⟨by decide, by decide⟩, ⟨by decide, by decide⟩,
    ⟨by decide, by decide⟩, ⟨by decide, by decide⟩, ⟨by decide, by decide⟩,
    ⟨by decide, by decide⟩⟩


/-- C4: output projection is a confidentiality boundary — constructing
`AdminResponse` from an attribute-bearing record reads exactly the declared
field names, so two records that agree on every declared attribute project
to equal instances no matter what undeclared internal-only attributes
(password hashes, internal flags) either of them carries. -/
theorem adminResponse_projection_confidentiality (g1 g2 : Getter)
    (h : ∀ n ∈ AdminResponse.fieldNames, g1 n = g2 n) :
    AdminResponse.from_attributes g1 = AdminResponse.from_attributes g2 := by
  unfold AdminResponse.from_attributes
  rw [reqField_congr g1 g2 "username" _ (h _ (by simp [AdminResponse.fieldNames])),
    reqField_congr g1 g2 "email" _ (h _ (by simp [AdminResponse.fieldNames])),
    dfltField_congr g1 g2 "full_name" _ _ (h _ (by simp [AdminResponse.fieldNames])),
    dfltField_congr g1 g2 "role" _ _ (h _ (by simp [AdminResponse.fieldNames])),
    dfltField_congr g1 g2 "branch_id" _ _ (h _ (by simp [AdminResponse.fieldNames])),
    reqField_congr g1 g2 "id" _ (h _ (by simp [AdminResponse.fieldNames])),
    reqField_congr g1 g2 "is_active" _ (h _ (by simp [AdminResponse.fieldNames])),
    reqField_congr g1 g2 "is_superuser" _ (h _ (by simp [AdminResponse.fieldNames])),
    reqField_congr g1 g2 "created_at" _ (h _ (by simp [AdminResponse.fieldNames])),
    dfltField_congr g1 g2 "last_login" _ _ (h _ (by simp [AdminResponse.fieldNames])),
    dfltField_congr g1 g2 "branch" _ _ (h _ (by simp [AdminResponse.fieldNames]))]

/-- C4 witness: a stored admin record carrying a password hash and an
internal flag, and the same record without them, agree on the declared
attributes and project to the same `AdminResponse`; the two records really
differ on the undeclared attribute. -/
theorem adminResponse_projection_confidentiality_witness :
    (∀ n ∈ AdminResponse.fieldNames, adminRecordWithSecrets n = adminRecordPublic n) ∧
    AdminResponse.from_attributes adminRecordWithSecrets =
      AdminResponse.from_attributes adminRecordPublic ∧
    adminRecordWithSecrets "hashed_password" = some (Value.vstr "s3cr3t-hash") ∧
    adminRecordPublic "hashed_password" = none := by
  have h : ∀ n ∈ AdminResponse.fieldNames,
      adminRecordWithSecrets n = adminRecordPublic n := by
    intro n hn
    fin_cases hn <;> rfl
  exact ⟨h, adminResponse_projection_confidentiality adminRecordWithSecrets
    adminRecordPublic h, rfl, rfl⟩

/-- C5 counterexample: the Admin pair breaks the round-trip claim — a valid
`AdminResponse` instance serializes to a mapping with no `password` key, so
re-parsing with the corresponding input shape `AdminCreate` does not
succeed: it fails with a missing-field error. -/
theorem adminResponse_roundtrip_fails :
    AdminCreate.parse
        (AdminResponse.model_dump
          ⟨"alice", "alice@x.org", none, UserRole.admin, none, 1, true, false,
            ⟨0⟩, none, none⟩) =
      .error [("password", ErrKind.missing)] := rfl

/-- C5 (amended): for every response shape whose corresponding create shape
requires only shared fields — the Branch, DailyExpense, Ingredient,
MenuItem, Order, DailySale and Inventory pairs, i.e. every pair except
Admin, where the required `password` is absent from the response —
serializing any valid instance and re-parsing with the create shape
succeeds and yields field-for-field equal values on every shared field
(element-wise on the shared fields for nested list fields). -/
theorem response_create_roundtrip_amended :
    (∀ r : BranchResponse,
      BranchCreate.parse r.model_dump =
        .ok ⟨r.name, r.location, r.address, r.phone, r.email, r.is_active⟩) ∧
    (∀ r : DailyExpenseResponse,
      DailyExpenseCreate.parse r.model_dump =
        .ok ⟨r.category, r.item_name, r.description, r.quantity, r.unit,
          r.unit_cost, r.total_amount, r.expense_date, r.receipt_number,
          r.vendor, r.branch_id⟩) ∧
    (∀ r : IngredientResponse,
      IngredientCreate.parse r.model_dump =
        .ok ⟨r.name, r.quantity, r.unit, r.image_url⟩) ∧
    (∀ r : MenuItemResponse,
      MenuItemCreate.parse r.model_dump =
        .ok ⟨r.name, r.price, r.description, r.image_url, r.category,
          r.is_available, r.branch_id, r.ingredients.map ingredientOfResponse⟩) ∧
    (∀ r : OrderResponse,
      OrderCreate.parse r.model_dump =
        .ok ⟨r.branch_id, r.customer_name, r.customer_email, r.order_type,
          r.items.map orderItemOfResponse⟩) ∧
    (∀ r : DailySaleResponse,
      DailySaleCreate.parse r.model_dump =
        .ok ⟨r.menu_item_id, r.branch_id, r.quantity⟩) ∧
    (∀ r : InventoryResponse,
      InventoryCreate.parse r.model_dump =
        .ok ⟨r.item_name, r.current_stock, r.unit, r.minimum_threshold,
          r.cost_per_unit, r.supplier, r.branch_id⟩) := by
  refine ⟨?_, ?_, ?_, ?_, ?_, ?_, ?_⟩
  · intro r
    rcases r with ⟨n, l, a, p, e, act, i, c, u⟩
    cases l <;> cases a <;> cases p <;> cases e <;> rfl
  · intro r
    rcases r with ⟨c, iname, d, q, u, uc, ta, ed, rn, ven, i, b, cb, ca⟩
    cases d <;> cases q <;> cases u <;> cases ed <;> cases rn <;> cases ven <;> rfl
  · intro r
    rcases r with ⟨n, q, u, iu, i, mid⟩
    cases iu <;> rfl
  · intro r
    rcases r with ⟨n, p, d, iu, c, av, b, i, ings, ca, ua⟩
    cases d <;> cases iu <;> cases c <;> cases b <;>
      simp [MenuItemCreate.parse, MenuItemResponse.model_dump, reqField, dfltField,
        lookupField, parseListV, mapElems_ingredients, vseq, parseOptV, parseStrV,
        parseFloatV, parseBoolV, parseIntV, sOpt, Except.map]
  · intro r
    rcases r with ⟨i, b, cn, ce, ta, st, ot, ca, co, its⟩
    cases cn <;> cases ce <;> cases co <;>
      simp [OrderCreate.parse, OrderResponse.model_dump, reqField, dfltField,
        lookupField, parseListV, mapElems_orderItems, vseq, parseOptV, parseStrV,
        parseFloatV, parseBoolV, parseIntV, sOpt, sDT, Except.map]
  · intro r
    rcases r with ⟨i, mid, b, q, rev, sd, mi⟩
    rfl
  · intro r
    rcases r with ⟨iname, cs, u, mt, cpu, sup, b, i, lr, ca, ua⟩
    cases mt <;> cases cpu <;> cases sup <;> rfl


/-- C6: every input-shape constructor is total on payloads, and its result
is all-or-nothing — either a fully populated instance or a
`ValidationError` carrying at least one per-field entry (each entry one of
the four kinds of `ErrKind`: missing field, type-coercion failure,
unrecognized enum value, or the image-URL `ValueError`); there is no
partial acceptance and no other error kind in the model. -/
theorem input_shapes_whole_or_error (m : Payload) :
    wholeOrError (BranchCreate.parse m) ∧ wholeOrError (BranchUpdate.parse m) ∧
    wholeOrError (ExpenseCategoryBase.parse m) ∧
    wholeOrError (DailyExpenseCreate.parse m) ∧
    wholeOrError (DailyExpenseUpdate.parse m) ∧
    wholeOrError (QuickExpenseCreate.parse m) ∧
    wholeOrError (IngredientCreate.parse m) ∧
    wholeOrError (IngredientUpdate.parse m) ∧
    wholeOrError (MenuItemCreate.parse m) ∧ wholeOrError (MenuItemUpdate.parse m) ∧
    wholeOrError (OrderItemCreate.parse m) ∧ wholeOrError (OrderCreate.parse m) ∧
    wholeOrError (OrderUpdate.parse m) ∧ wholeOrError (DailySaleCreate.parse m) ∧
    wholeOrError (AdminCreate.parse m) ∧ wholeOrError (AdminUpdate.parse m) ∧
    wholeOrError (AdminLogin.parse m) ∧ wholeOrError (InventoryCreate.parse m) ∧
    wholeOrError (InventoryUpdate.parse m) ∧
    wholeOrError (ImageUploadResponse.parse m) :=
  ⟨wholeOrError_of_ne _ (branchBase_parse_ne m),
    wholeOrError_of_ne _ (branchUpdate_parse_ne m),
    wholeOrError_of_ne _ (expenseCategoryBase_parse_ne m),
    wholeOrError_of_ne _ (dailyExpenseCreate_parse_ne m),
    wholeOrError_of_ne _ (dailyExpenseUpdate_parse_ne m),
    wholeOrError_of_ne _ (quickExpenseCreate_parse_ne m),
    wholeOrError_of_ne _ (ingredientBase_parse_ne m),
    wholeOrError_of_ne _ (ingredientUpdate_parse_ne m),
    wholeOrError_of_ne _ (menuItemCreate_parse_ne m),
    wholeOrError_of_ne _ (menuItemUpdate_parse_ne m),
    wholeOrError_of_ne _ (orderItemCreate_parse_ne m),
    wholeOrError_of_ne _ (orderCreate_parse_ne m),
    wholeOrError_of_ne _ (orderUpdate_parse_ne m),
    wholeOrError_of_ne _ (dailySaleCreate_parse_ne m),
    wholeOrError_of_ne _ (adminCreate_parse_ne m),
    wholeOrError_of_ne _ (adminUpdate_parse_ne m),
    wholeOrError_of_ne _ (adminLogin_parse_ne m),
    wholeOrError_of_ne _ (inventoryBase_parse_ne m),
    wholeOrError_of_ne _ (inventoryUpdate_parse_ne m),
    wholeOrError_of_ne _ (imageUploadResponse_parse_ne m)⟩

/-- C7: `DailyExpenseCreate` and `DailyExpenseUpdate` place no arithmetic
constraint among `total_amount`, `quantity` and `unit_cost`: for every
choice of the three values — including every one with
`total_amount ≠ quantity * unit_cost` — construction succeeds and stores
`total_amount` exactly as supplied, never recomputed. -/
theorem dailyExpense_total_amount_not_recomputed (q uc ta : Rat) :
    DailyExpenseCreate.parse
        [("category", Value.vstr "Produce"), ("item_name", Value.vstr "Tomatoes"),
         ("quantity", Value.vfloat q), ("unit_cost", Value.vfloat uc),
         ("total_amount", Value.vfloat ta), ("branch_id", Value.vint 1)] =
      .ok ⟨"Produce", "Tomatoes", none, some q, none, uc, ta, none, none, none, 1⟩ ∧
    DailyExpenseUpdate.parse
        [("quantity", Value.vfloat q), ("unit_cost", Value.vfloat uc),
         ("total_amount", Value.vfloat ta)] =
      .ok ⟨none, none, none, some q, none, some uc, some ta, none, none, none,
        ["quantity", "unit_cost", "total_amount"]⟩ :=
  ⟨rfl, rfl⟩

/-- C8: `OrderCreate` with `branch_id=1` and an empty `items` list is
structurally valid, and with `order_type` absent the instance carries the
default "dine_in". -/
theorem orderCreate_empty_items_defaults :
    OrderCreate.parse [("branch_id", Value.vint 1), ("items", Value.vlist [])] =
      .ok ⟨1, none, none, "dine_in", []⟩ := rfl

/-- C9: email-format validation applies only to the `EmailStr` fields of
the Admin shapes — for every string `v`, however malformed as an email
address, `BranchBase`/`BranchCreate` with `email=v`, `OrderCreate` with
`customer_email=v` and `UserResponse` with `email=v` all construct
successfully carrying `v` verbatim, while `AdminBase` accepts `email=v`
exactly when `v` passes the (spec-modelled) well-formedness check. -/
theorem email_validation_scope (v : String) :
    BranchCreate.parse [("name", Value.vstr "b"), ("email", Value.vstr v)] =
      .ok ⟨"b", none, none, none, some v, true⟩ ∧
    OrderCreate.parse
        [("branch_id", Value.vint 1), ("customer_email", Value.vstr v),
         ("items", Value.vlist [])] =
      .ok ⟨1, none, some v, "dine_in", []⟩ ∧
    UserResponse.parse
        [("id", Value.vint 1), ("username", Value.vstr "u"),
         ("email", Value.vstr v), ("full_name", Value.vstr "f"),
         ("role", Value.vstr "worker"), ("is_active", Value.vbool true),
         ("is_superuser", Value.vbool false), ("created_at", Value.vint 0)] =
      .ok ⟨1, "u", v, "f", "worker", none, true, false, ⟨0⟩⟩ ∧
    ((∃ a, AdminBase.parse
        [("username", Value.vstr "u"), ("email", Value.vstr v)] = .ok a) ↔
      isEmail v) := by
  refine ⟨rfl, rfl, rfl, ?_⟩
  by_cases he : isEmail v <;>
    simp [AdminBase.parse, reqField, dfltField, lookupField, parseEmailV,
      parseStrV, parseOptV, vseq, he, Except.map]

/-- C10: whenever the `role` key is absent from the payload, a successful
`AdminBase` or `AdminCreate` construction yields `role = UserRole.worker`
(the declared default `UserRole.WORKER`). -/
theorem admin_role_defaults_to_worker (m : Payload)
    (h : lookupField m "role" = none) :
    (∀ a, AdminBase.parse m = .ok a → a.role = UserRole.worker) ∧
    (∀ b, AdminCreate.parse m = .ok b → b.role = UserRole.worker) := by
  have hbase : ∀ a, AdminBase.parse m = .ok a → a.role = UserRole.worker := by
    intro a ha
    rw [AdminBase.parse, emap_ok] at ha
    obtain ⟨x, hx, rfl⟩ := ha
    simp only [vseq_ok_iff] at hx
    obtain ⟨-, -, -, hrole, -⟩ := hx
    simp only [dfltField, h] at hrole
    simpa using hrole.symm
  refine ⟨hbase, ?_⟩
  intro b hb
  rw [AdminCreate.parse, emap_ok] at hb
  obtain ⟨x, hx, rfl⟩ := hb
  simp only [vseq_ok_iff] at hx
  obtain ⟨hb1, -⟩ := hx
  simpa using hbase x.1 hb1

/-- C10 witness: a concrete payload with no `role` key constructs an
`AdminBase` whose role is `worker`, via the default-role theorem. -/
theorem admin_role_defaults_to_worker_witness :
    AdminBase.parse [("username", Value.vstr "u"), ("email", Value.vstr "u@ex.org")] =
      .ok ⟨"u", "u@ex.org", none, UserRole.worker, none⟩ ∧
    (∀ a, AdminBase.parse
        [("username", Value.vstr "u"), ("email", Value.vstr "u@ex.org")] = .ok a →
      a.role = UserRole.worker) :=
  ⟨rfl, (admin_role_defaults_to_worker
    [("username", Value.vstr "u"), ("email", Value.vstr "u@ex.org")] rfl).1⟩

end Schemas
